import Mathlib

/-
Verification of `include/flatcc/portable/pparsefp.h` (flatcc).

Floating-point values are embedded by their IEEE-754 bit patterns: a
binary64 value is a natural number below 2 ^ 64, a binary32 value a
natural number below 2 ^ 32.  The semantic relations of the C language
on those values (native `==`, `<`, `isnan`, the double-to-float cast)
are defined from the IEEE-754 format: every non-NaN value is uniquely
described by its sign and its magnitude bits, magnitude bits order
values of equal sign, `+0` and `-0` are the two patterns with magnitude
zero, and NaN compares false under `==` and `<`.

The functions of the header itself (`parse_double_isinf`,
`parse_float_isinf`, `parse_double_is_range_error`,
`parse_float_is_range_error`, `parse_double_compare`,
`parse_float_compare`, `parse_double_is_equal`, `parse_float_is_equal`,
`parse_float`) are translated line by line below.  The decimal parsing
engines (`grisu3_parse_double` from grisu3_parse.h and the platform
`strtod`) are not part of the excerpt; where they are needed they are
modelled from the specification, and `parse_float` takes the engine as
an explicit parameter, standing for the build-time selected
`parse_double`.
-/

set_option maxRecDepth 40000

namespace Pparsefp

/-! ## IEEE-754 semantic ground truth on bit patterns -/

/-- A binary64 bit pattern is a NaN: exponent field all ones, mantissa nonzero. -/
def isnan64 (b : Nat) : Bool := (b / 2 ^ 52 % 2 ^ 11 == 2047) && (b % 2 ^ 52 != 0)

/-- A binary64 bit pattern is an infinity: exponent field all ones, mantissa zero.
This is the semantics of the C `isinf` predicate, i.e. the low 63 bits equal the
canonical exponent-all-ones / mantissa-all-zero pattern. -/
def isinf64 (b : Nat) : Bool := (b / 2 ^ 52 % 2 ^ 11 == 2047) && (b % 2 ^ 52 == 0)

/-- Sign bit of a binary64 pattern. -/
def sign64 (b : Nat) : Nat := b / 2 ^ 63 % 2

/-- Magnitude bits (exponent and mantissa) of a binary64 pattern. -/
def mag64 (b : Nat) : Nat := b % 2 ^ 63

/-- Order key of a non-NaN binary64 pattern: magnitude bits, negated when the
sign bit is set.  For non-NaN patterns this keys the numeric order, and the two
zero patterns share the key 0. -/
def key64 (b : Nat) : Int := if sign64 b = 1 then -(mag64 b : Int) else (mag64 b : Int)

/-- Native C `==` on binary64 values: false when either side is NaN, otherwise
equality of numeric values (`+0 == -0` holds). -/
def f64_eqb (x y : Nat) : Bool := !isnan64 x && !isnan64 y && (key64 x == key64 y)

/-- Native C `<` on binary64 values: false when either side is NaN. -/
def f64_ltb (x y : Nat) : Bool := !isnan64 x && !isnan64 y && decide (key64 x < key64 y)

/-- A binary32 bit pattern is a NaN. -/
def isnan32 (b : Nat) : Bool := (b / 2 ^ 23 % 2 ^ 8 == 255) && (b % 2 ^ 23 != 0)

/-- A binary32 bit pattern is an infinity. -/
def isinf32 (b : Nat) : Bool := (b / 2 ^ 23 % 2 ^ 8 == 255) && (b % 2 ^ 23 == 0)

/-- Sign bit of a binary32 pattern. -/
def sign32 (b : Nat) : Nat := b / 2 ^ 31 % 2

/-- Magnitude bits of a binary32 pattern. -/
def mag32 (b : Nat) : Nat := b % 2 ^ 31

/-- Order key of a non-NaN binary32 pattern. -/
def key32 (b : Nat) : Int := if sign32 b = 1 then -(mag32 b : Int) else (mag32 b : Int)

/-- Native C `==` on binary32 values. -/
def f32_eqb (x y : Nat) : Bool := !isnan32 x && !isnan32 y && (key32 x == key32 y)

/-- Native C `<` on binary32 values. -/
def f32_ltb (x y : Nat) : Bool := !isnan32 x && !isnan32 y && decide (key32 x < key32 y)

/-! ## The double-to-float cast `(float)v`

The C cast from binary64 to binary32 rounds to nearest, ties to even, with
overflow going to infinity.  It is computed here exactly on bit patterns by
integer arithmetic.  `bitlen` is fuel-based so that it evaluates inside the
kernel. -/

/-- Number of binary digits, with explicit fuel (the fuel is only consumed once
per halving, so `bitlenAux n n` is exact for every `n`). -/
def bitlenAux : Nat → Nat → Nat
  | 0, _ => 0
  | f + 1, n => if n = 0 then 0 else bitlenAux f (n / 2) + 1

/-- Number of binary digits of `n` (0 for 0). -/
def bitlen (n : Nat) : Nat := bitlenAux n n

/-- Round `num / (den * 2 ^ g)` to the nearest integer, ties to even.
A negative `g` multiplies the numerator instead. -/
def rndHalfEven (num den : Nat) (g : Int) : Nat :=
  let n2 := num * 2 ^ (-g).toNat
  let d2 := den * 2 ^ g.toNat
  let q := n2 / d2
  let r := n2 % d2
  if 2 * r < d2 then q
  else if d2 < 2 * r then q + 1
  else if q % 2 = 0 then q else q + 1

/-- Floor of the base-2 logarithm of the positive rational `num / den`. -/
def floorLog2 (num den : Nat) : Int :=
  let t : Int := (bitlen num : Int) - (bitlen den : Int)
  if den * 2 ^ t.toNat ≤ num * 2 ^ (-t).toNat then t else t - 1

/-- Round the value `M * 2 ^ E` (with `M > 0`) to the nearest binary32 and
encode it with sign bit `s`; overflow gives the signed infinity. -/
def roundScaledToF32 (s M : Nat) (E : Int) : Nat :=
  let p : Int := (bitlen M : Int) - 1 + E
  let g : Int := max (p - 23) (-149)
  let q0 := rndHalfEven M 1 (g - E)
  let q := if q0 = 2 ^ 24 then 2 ^ 23 else q0
  let g2 := if q0 = 2 ^ 24 then g + 1 else g
  if 2 ^ 277 ≤ q * 2 ^ (g2 + 149).toNat then s * 2 ^ 31 + 0x7f800000
  else if q < 2 ^ 23 then s * 2 ^ 31 + q
  else s * 2 ^ 31 + (g2 + 150).toNat * 2 ^ 23 + (q - 2 ^ 23)

/-- The C cast `(float)v` on bit patterns: NaN maps to the signed quiet NaN,
infinity to the signed infinity, finite values are rounded to nearest with ties
to even and overflow to infinity. -/
def f64_to_f32 (b : Nat) : Nat :=
  let s : Nat := b / 2 ^ 63 % 2
  let e : Nat := b / 2 ^ 52 % 2 ^ 11
  let m : Nat := b % 2 ^ 52
  if e = 2047 then
    if m = 0 then s * 2 ^ 31 + 0x7f800000 else s * 2 ^ 31 + 0x7fc00000
  else if e = 0 then
    if m = 0 then s * 2 ^ 31 else roundScaledToF32 s m (-1074)
  else roundScaledToF32 s (2 ^ 52 + m) ((e : Int) - 1075)

/-! ## The functions of pparsefp.h -/

/-- `parse_double_isinf` (bit-pattern branch, lines 70-76):
`(u64x & 0x7fffffff00000000ULL) == 0x7ff0000000000000ULL`. -/
def parse_double_isinf (b : Nat) : Bool :=
  Nat.land b 0x7fffffff00000000 == 0x7ff0000000000000

/-- `parse_float_isinf` (lines 78-84): `(u32x & 0x7fffffff) == 0x7f800000`. -/
def parse_float_isinf (b : Nat) : Bool :=
  Nat.land b 0x7fffffff == 0x7f800000

/-- `parse_double_is_range_error` (lines 96-99):
`parse_double_isinf(x) ? (x < 0.0 ? -1 : 1) : 0`. -/
def parse_double_is_range_error (b : Nat) : Int :=
  if parse_double_isinf b then (if f64_ltb b 0 then -1 else 1) else 0

/-- `parse_float_is_range_error` (lines 101-104). -/
def parse_float_is_range_error (b : Nat) : Int :=
  if parse_float_isinf b then (if f32_ltb b 0 then -1 else 1) else 0

/-- `parse_double_compare` (lines 148-153):
`if (x == y) return 0; return x < y ? -1 : 1;`. -/
def parse_double_compare (x y : Nat) : Int :=
  if f64_eqb x y then 0 else if f64_ltb x y then -1 else 1

/-- Reinterpretation of a binary32 bit pattern as a two's-complement `int32_t`,
as done by the `memcpy` in `parse_float_compare`. -/
def i32ofBits (b : Nat) : Int :=
  if b < 2 ^ 31 then (b : Int) else (b : Int) - 2 ^ 32

/-- `parse_float_compare` (lines 155-165): native equality first, then NaN
checks, then signed-integer comparison of the bit patterns. -/
def parse_float_compare (x y : Nat) : Int :=
  if f32_eqb x y then 0
  else if isnan32 x then 1
  else if isnan32 y then 1
  else if i32ofBits x < i32ofBits y then -1 else 1

/-- `parse_double_is_equal` (lines 167-170): `return x == y;`. -/
def parse_double_is_equal (x y : Nat) : Bool := f64_eqb x y

/-- `parse_float_is_equal` (lines 173-176): `parse_float_compare(x, y) == 0`. -/
def parse_float_is_equal (x y : Nat) : Bool := parse_float_compare x y == 0

/-! ## The decimal parsing engine

Modelled from the spec: `grisu3_parse_double` (grisu3_parse.h) and the
platform `strtod` are not under src/.  The model follows the
specification's contract for the decimal parser: parse an optionally
signed decimal number with optional fraction and decimal exponent from
the start of the span, no whitespace; return the unchanged start offset
(here 0, with value 0 as `strtod` leaves it) when the first character
does not begin a number; return the distinguished failure value (`none`)
only when the input begins a numeric token that cannot be completed;
otherwise return the one-past-the-end offset and the correctly rounded
binary64 value, with overflow reported as the signed infinity. -/

/-- Scan a run of decimal digits, extending the accumulated value `acc`,
counting the digits into `k`, and returning the unconsumed rest. -/
def scanDigits (acc k : Nat) : List Char → Nat × Nat × List Char
  | [] => (acc, k, [])
  | c :: rest =>
    if c.isDigit then scanDigits (acc * 10 + (c.toNat - 48)) (k + 1) rest
    else (acc, k, c :: rest)

/-- Round the value `(-1) ^ neg * num / den` (`den > 0`) to the nearest
binary64, ties to even, and encode its bit pattern; overflow gives the signed
infinity, and `num = 0` gives the signed zero. -/
def roundRatToF64 (neg : Bool) (num den : Nat) : Nat :=
  let s : Nat := if neg then 2 ^ 63 else 0
  if num = 0 then s
  else
    let p := floorLog2 num den
    let g : Int := max (p - 52) (-1074)
    let q0 := rndHalfEven num den g
    let q := if q0 = 2 ^ 53 then 2 ^ 52 else q0
    let g2 := if q0 = 2 ^ 53 then g + 1 else g
    if 2 ^ 2098 ≤ q * 2 ^ (g2 + 1074).toNat then s + 0x7ff0000000000000
    else if q < 2 ^ 52 then s + q
    else s + (g2 + 1075).toNat * 2 ^ 52 + (q - 2 ^ 52)

/-- Round the decimal value `(-1) ^ neg * sig * 10 ^ e10` to binary64 bits. -/
def roundDecToF64 (neg : Bool) (sig : Nat) (e10 : Int) : Nat :=
  if 0 ≤ e10 then roundRatToF64 neg (sig * 10 ^ e10.toNat) 1
  else roundRatToF64 neg sig (10 ^ (-e10).toNat)

/-- Does a character begin a number (digit, sign, or decimal point)? -/
def beginsNumber (c : Char) : Bool := c.isDigit || c == '-' || c == '+' || c == '.'

/-- Modelled from the spec: the body of the decimal parser, entered once the
first character begins a number.  Consumes sign, integer digits, optional
fraction, optional exponent; `none` (the C null) when the numeric token cannot
be completed (no mantissa digit, or exponent marker without digits). -/
def parseNumberTok (buf : List Char) : Option (Nat × Nat) :=
  let neg : Bool := match buf with | '-' :: _ => true | _ => false
  let i1 : Nat := match buf with | '-' :: _ => 1 | '+' :: _ => 1 | _ => 0
  let (n1, k1, rest2) := scanDigits 0 0 (buf.drop i1)
  let (sig, k2, rest3) :=
    match rest2 with
    | '.' :: r => scanDigits n1 0 r
    | _ => (n1, 0, rest2)
  let dot : Nat := match rest2 with | '.' :: _ => 1 | _ => 0
  let i3 : Nat := i1 + k1 + dot + k2
  if k1 + k2 = 0 then none
  else
    match rest3 with
    | c :: r =>
      if c == 'e' || c == 'E' then
        let eneg : Bool := match r with | '-' :: _ => true | _ => false
        let j : Nat := match r with | '-' :: _ => 1 | '+' :: _ => 1 | _ => 0
        let (ev, k3, _) := scanDigits 0 0 (r.drop j)
        if k3 = 0 then none
        else some (i3 + 1 + j + k3,
          roundDecToF64 neg sig ((if eneg then -(ev : Int) else (ev : Int)) - (k2 : Int)))
      else some (i3, roundDecToF64 neg sig (-(k2 : Int)))
    | [] => some (i3, roundDecToF64 neg sig (-(k2 : Int)))

/-- Modelled from the spec: `parse_double` in its fallback configuration
(lines 121-128, delegating to the platform `strtod`, which is not under src/).
Result `none` is the C null return; `some (off, v)` returns offset `off` with
`*result = v`; offset 0 with value 0 is the unchanged start offset (no match). -/
def parse_double (buf : List Char) : Option (Nat × Nat) :=
  match buf with
  | [] => some (0, 0)
  | c :: _ => if beginsNumber c then parseNumberTok buf else some (0, 0)

/-- Modelled from the spec: a build with the fast-path engine enabled
(lines 114-118).  The engine `fast` answers `some r` for the inputs it
accepts and `none` when it defers to the fallback, as the spec requires. -/
def parse_double_grisu3 (fast : List Char → Option (Option (Nat × Nat)))
    (buf : List Char) : Option (Nat × Nat) :=
  match fast buf with
  | some r => r
  | none => parse_double buf

/-- `parse_float` (lines 131-145), with the build-selected 64-bit engine `pd`
passed explicitly.  `end = parse_double(buf, len, &v); *result = (float)v;
if (parse_float_isinf(*result)) { *result = v < 0 ? -inf.f32 : inf.f32;
return buf; } return end;`. -/
def parse_float (pd : List Char → Option (Nat × Nat)) (buf : List Char) :
    Option (Nat × Nat) :=
  match pd buf with
  | none => none
  | some (e, v) =>
    let r := f64_to_f32 v
    if parse_float_isinf r then
      some (0, if f64_ltb v 0 then 0xff800000 else 0x7f800000)
    else some (e, r)

/-! ## Claims -/

/-- Claim C1 (evaluation of the code at the failing input): the bit-pattern
classifier `parse_double_isinf` masks with 0x7fffffff00000000, ignoring the
low 32 mantissa bits, so the NaN with bit pattern 0x7ff0000000000001 — whose
payload lies entirely in those untested bits — is classified as an infinity,
although a correct `isinf` returns 0 on every NaN.  The 32-bit sibling
`parse_float_isinf` tests all 31 non-sign bits and classifies the analogous
NaN correctly. -/
theorem parse_double_isinf_nan_misclassified :
    isnan64 0x7ff0000000000001 = true ∧
    isinf64 0x7ff0000000000001 = false ∧
    parse_double_isinf 0x7ff0000000000001 = true ∧
    isnan32 0x7f800001 = true ∧
    parse_float_isinf 0x7f800001 = false := by decide

/-- Claim C4 (evaluation of the code at the failing input): because
`parse_double_is_range_error` builds on the defective `parse_double_isinf`,
the NaN 0x7ff0000000000001 is reported as overflow (+1) instead of 0, while
the claim's statements about the infinities, finite values, and the 32-bit
variant hold at the sampled points. -/
theorem parse_double_is_range_error_nan_bug :
    isnan64 0x7ff0000000000001 = true ∧
    parse_double_is_range_error 0x7ff0000000000001 = 1 ∧
    parse_double_is_range_error 0x7ff0000000000000 = 1 ∧
    parse_double_is_range_error 0xfff0000000000000 = -1 ∧
    parse_double_is_range_error 0x3ff0000000000000 = 0 ∧
    parse_float_is_range_error 0x7fc00000 = 0 ∧
    parse_float_is_range_error 0x7f800000 = 1 ∧
    parse_float_is_range_error 0xff800000 = -1 := by decide

/-- Claim C5: two NaNs are never equal: `parse_double_is_equal` is false on
any pair of 64-bit NaNs, `parse_float_is_equal` is false on any pair of 32-bit
NaNs, and `parse_float_compare` never returns 0 when either operand is NaN. -/
theorem nan_never_equal :
    (∀ x y : Nat, isnan64 x = true → isnan64 y = true →
      parse_double_is_equal x y = false) ∧
    (∀ x y : Nat, isnan32 x = true → isnan32 y = true →
      parse_float_is_equal x y = false) ∧
    (∀ x y : Nat, isnan32 x = true ∨ isnan32 y = true →
      parse_float_compare x y ≠ 0) := by
  refine ⟨?_, ?_, ?_⟩
  · intro x y hx _
    simp [parse_double_is_equal, f64_eqb, hx]
  · intro x y hx _
    simp [parse_float_is_equal, parse_float_compare, f32_eqb, hx]
  · intro x y h
    rcases h with h | h
    · simp [parse_float_compare, f32_eqb, h]
    · cases hx : isnan32 x <;> simp [parse_float_compare, f32_eqb, hx, h]

/-- Witness for C5 at concrete quiet NaNs. -/
theorem nan_never_equal_witness :
    parse_double_is_equal 0x7ff8000000000000 0x7ff8000000000000 = false ∧
    parse_float_is_equal 0x7fc00000 0x7fc00000 = false ∧
    parse_float_compare 0x7fc00000 0x3f800000 ≠ 0 :=
  ⟨nan_never_equal.1 _ _ (by decide) (by decide),
   nan_never_equal.2.1 _ _ (by decide) (by decide),
   nan_never_equal.2.2 _ _ (Or.inl (by decide))⟩

/-- Claim C9: `parse_double_compare` is deterministic, returns 1 whenever an
operand is NaN (in particular on two NaNs), 0 on natively equal operands
(`+0` and `-0` compare equal), -1 when `x < y` and 1 when `y < x`. -/
theorem parse_double_compare_contract :
    (∀ x y : Nat,
      ((isnan64 x = true ∨ isnan64 y = true) → parse_double_compare x y = 1) ∧
      (f64_eqb x y = true → parse_double_compare x y = 0) ∧
      (f64_ltb x y = true → parse_double_compare x y = -1) ∧
      (f64_ltb y x = true → parse_double_compare x y = 1)) ∧
    parse_double_compare 0 0x8000000000000000 = 0 ∧
    parse_double_compare 0x7ff8000000000000 0x7ff8000000000000 = 1 := by
  refine ⟨?_, by decide, by decide⟩
  intro x y
  refine ⟨?_, ?_, ?_, ?_⟩
  · intro h
    rcases h with h | h <;> simp [parse_double_compare, f64_eqb, f64_ltb, h]
  · intro h
    simp [parse_double_compare, h]
  · intro h
    simp only [f64_ltb, Bool.and_eq_true, Bool.not_eq_true', decide_eq_true_eq] at h
    obtain ⟨⟨hnx, hny⟩, hlt⟩ := h
    simp [parse_double_compare, f64_eqb, f64_ltb, hnx, hny, hlt, ne_of_lt hlt]
  · intro h
    simp only [f64_ltb, Bool.and_eq_true, Bool.not_eq_true', decide_eq_true_eq] at h
    obtain ⟨⟨hny, hnx⟩, hlt⟩ := h
    simp [parse_double_compare, f64_eqb, f64_ltb, hnx, hny,
      (ne_of_lt hlt).symm, asymm hlt]

/-- Witness for C9 at concrete inputs: NaN versus 0, 1.0 versus itself,
1.0 versus 2.0, and 2.0 versus 1.0. -/
theorem parse_double_compare_contract_witness :
    parse_double_compare 0x7ff8000000000000 0 = 1 ∧
    parse_double_compare 0x3ff0000000000000 0x3ff0000000000000 = 0 ∧
    parse_double_compare 0x3ff0000000000000 0x4000000000000000 = -1 ∧
    parse_double_compare 0x4000000000000000 0x3ff0000000000000 = 1 :=
  ⟨(parse_double_compare_contract.1 _ _).1 (Or.inl (by decide)),
   (parse_double_compare_contract.1 _ _).2.1 (by decide),
   (parse_double_compare_contract.1 _ _).2.2.1 (by decide),
   (parse_double_compare_contract.1 _ _).2.2.2 (by decide)⟩

/-- Claim C10: on non-NaN operands `parse_float_is_equal` coincides with the
native `==`, and in particular `+0.0f` equals `-0.0f` although their bit
patterns differ. -/
theorem parse_float_is_equal_matches_native :
    (∀ x y : Nat, isnan32 x = false → isnan32 y = false →
      parse_float_is_equal x y = f32_eqb x y) ∧
    parse_float_is_equal 0x00000000 0x80000000 = true := by
  refine ⟨?_, by decide⟩
  intro x y hx hy
  cases he : f32_eqb x y
  · by_cases hlt : i32ofBits x < i32ofBits y
    · simp [parse_float_is_equal, parse_float_compare, he, hx, hy, hlt]
    · simp [parse_float_is_equal, parse_float_compare, he, hx, hy, hlt]
  · simp [parse_float_is_equal, parse_float_compare, he]

/-- Witness for C10 at 1.0f versus 2.0f. -/
theorem parse_float_is_equal_matches_native_witness :
    parse_float_is_equal 0x3f800000 0x40000000 = f32_eqb 0x3f800000 0x40000000 :=
  parse_float_is_equal_matches_native.1 _ _ (by decide) (by decide)

/-- Claim C6: `parse_float_compare` is antisymmetric on non-NaN, natively
unequal operands. -/
theorem parse_float_compare_antisymmetric :
    ∀ x y : Nat, x < 2 ^ 32 → y < 2 ^ 32 →
    isnan32 x = false → isnan32 y = false → f32_eqb x y = false →
    parse_float_compare x y = -parse_float_compare y x := by
  intro x y hx hy hnx hny hne
  have hxy : x ≠ y := by
    intro h
    subst h
    simp [f32_eqb, hnx] at hne
  have hkne : key32 x ≠ key32 y := by
    intro h
    simp [f32_eqb, hnx, hny, h] at hne
  have hne2 : f32_eqb y x = false := by
    simp only [f32_eqb, hnx, hny, Bool.not_false, Bool.true_and]
    exact beq_false_of_ne fun h => hkne h.symm
  have hi : i32ofBits x ≠ i32ofBits y := by
    simp only [i32ofBits]
    split <;> split <;> omega
  rcases lt_trichotomy (i32ofBits x) (i32ofBits y) with h | h | h
  · simp [parse_float_compare, hne, hne2, hnx, hny, h, asymm h]
  · exact absurd h hi
  · simp [parse_float_compare, hne, hne2, hnx, hny, h, asymm h]

/-- Witness for C6 at 1.0f versus 2.0f. -/
theorem parse_float_compare_antisymmetric_witness :
    parse_float_compare 0x3f800000 0x40000000 =
      -parse_float_compare 0x40000000 0x3f800000 :=
  parse_float_compare_antisymmetric _ _ (by decide) (by decide) (by decide)
    (by decide) (by decide)

/-- Claim C3 counterexample: `-2.0f` (bits 0xC0000000) and `-1.0f` (bits
0xBF800000) are non-NaN, share the sign bit, are unequal, and `-2.0f < -1.0f`,
yet `parse_float_compare` answers 1 where the claim demands -1: the signed
two's-complement reinterpretation reverses the numeric order of negative
floats. -/
theorem parse_float_compare_negative_pair_reversed :
    isnan32 0xc0000000 = false ∧ isnan32 0xbf800000 = false ∧
    sign32 0xc0000000 = sign32 0xbf800000 ∧
    f32_eqb 0xc0000000 0xbf800000 = false ∧
    f32_ltb 0xc0000000 0xbf800000 = true ∧
    parse_float_compare 0xc0000000 0xbf800000 = 1 := by decide

/-- Claim C3 amended: for unequal non-NaN operands whose shared sign is
positive (sign bit clear), `parse_float_compare` returns -1 exactly when
`x < y` and 1 exactly when `x > y`; for negative pairs the signed-integer
reinterpretation reverses the order. -/
theorem parse_float_compare_nonneg_order :
    ∀ x y : Nat, x < 2 ^ 31 → y < 2 ^ 31 →
    isnan32 x = false → isnan32 y = false → f32_eqb x y = false →
    (parse_float_compare x y = -1 ↔ f32_ltb x y = true) ∧
    (parse_float_compare x y = 1 ↔ f32_ltb y x = true) := by
  intro x y hx hy hnx hny hne
  have hkx : key32 x = (x : Int) := by
    unfold key32 sign32 mag32
    rw [Nat.div_eq_of_lt hx, Nat.mod_eq_of_lt hx]
    simp
  have hky : key32 y = (y : Int) := by
    unfold key32 sign32 mag32
    rw [Nat.div_eq_of_lt hy, Nat.mod_eq_of_lt hy]
    simp
  have hix : i32ofBits x = (x : Int) := by
    unfold i32ofBits
    rw [if_pos hx]
  have hiy : i32ofBits y = (y : Int) := by
    unfold i32ofBits
    rw [if_pos hy]
  have hkne : (x : Int) ≠ (y : Int) := by
    intro h
    rw [← hkx, ← hky] at h
    simp [f32_eqb, hnx, hny, h] at hne
  by_cases hlt : (x : Int) < (y : Int)
  · have hc : parse_float_compare x y = -1 := by
      simp [parse_float_compare, hne, hnx, hny, hix, hiy, hlt]
    have hl1 : f32_ltb x y = true := by
      simp [f32_ltb, hnx, hny, hkx, hky, hlt]
    have hl2 : f32_ltb y x = false := by
      simp [f32_ltb, hnx, hny, hkx, hky, asymm hlt]
    rw [hc, hl1, hl2]
    exact ⟨by simp, by simp⟩
  · have hgt : (y : Int) < (x : Int) := lt_of_le_of_ne (not_lt.mp hlt) hkne.symm
    have hc : parse_float_compare x y = 1 := by
      simp [parse_float_compare, hne, hnx, hny, hix, hiy, hlt]
    have hl1 : f32_ltb x y = false := by
      simp [f32_ltb, hnx, hny, hkx, hky, hlt]
    have hl2 : f32_ltb y x = true := by
      simp [f32_ltb, hnx, hny, hkx, hky, hgt]
    rw [hc, hl1, hl2]
    exact ⟨by simp, by simp⟩

/-- Witness for the amended C3 at 1.0f versus 2.0f. -/
theorem parse_float_compare_nonneg_order_witness :
    (parse_float_compare 0x3f800000 0x40000000 = -1 ↔
      f32_ltb 0x3f800000 0x40000000 = true) ∧
    (parse_float_compare 0x3f800000 0x40000000 = 1 ↔
      f32_ltb 0x40000000 0x3f800000 = true) :=
  parse_float_compare_nonneg_order _ _ (by decide) (by decide) (by decide)
    (by decide) (by decide)

/-- The 64-bit engine outcome used for claim C2: a successful five-character
parse producing the finite double 2 ^ 200 (bits 0x4c70000000000000), a value
that truly exceeds the binary32 range (2 ^ 128 < 2 ^ 200), not a rounding
artifact of narrowing. -/
def pdStub : List Char → Option (Nat × Nat) := fun _ => some (5, 0x4c70000000000000)

/-- Claim C2 counterexample: on a true 32-bit overflow (64-bit value 2 ^ 200,
strictly above 2 ^ 128 whose double bits are 0x47f0000000000000), the claim
demands the end-of-parse offset 5 with the positive infinity, but `parse_float`
returns the start-of-span offset 0 (it returns the start offset whenever the
narrowed value is infinite). -/
theorem parse_float_true_overflow_returns_start :
    f64_ltb 0x47f0000000000000 0x4c70000000000000 = true ∧
    parse_float_isinf (f64_to_f32 0x4c70000000000000) = true ∧
    pdStub ['1', 'e', '3', '0', '0'] = some (5, 0x4c70000000000000) ∧
    parse_float pdStub ['1', 'e', '3', '0', '0'] ≠ some (5, 0x7f800000) ∧
    parse_float pdStub ['1', 'e', '3', '0', '0'] = some (0, 0x7f800000) := by decide

/-- Claim C2 amended: whenever the 64-bit parse succeeds with value `v` and
narrowing `v` to 32 bits yields an infinity — true overflow and rounding
artifact alike — `parse_float` returns the start-of-span offset (signalling
no-match) while storing the correctly-signed 32-bit infinity, chosen by the
sign of the original 64-bit value, for which `parse_float_is_range_error`
reports -1 or +1. -/
theorem parse_float_inf_narrowing :
    ∀ (pd : List Char → Option (Nat × Nat)) (buf : List Char) (e v : Nat),
    pd buf = some (e, v) → parse_float_isinf (f64_to_f32 v) = true →
    parse_float pd buf =
      some (0, if f64_ltb v 0 then 0xff800000 else 0x7f800000) ∧
    parse_float_is_range_error (if f64_ltb v 0 then 0xff800000 else 0x7f800000) =
      (if f64_ltb v 0 then -1 else 1) := by
  intro pd buf e v hpd hinf
  constructor
  · simp [parse_float, hpd, hinf]
  · by_cases hv : f64_ltb v 0 = true
    · rw [if_pos hv, if_pos hv]
      decide
    · rw [if_neg hv, if_neg hv]
      decide

/-- Witness for the amended C2 at the concrete engine outcome `pdStub`. -/
theorem parse_float_inf_narrowing_witness :
    parse_float pdStub ['2'] =
      some (0, if f64_ltb 0x4c70000000000000 0 then 0xff800000 else 0x7f800000) ∧
    parse_float_is_range_error
        (if f64_ltb 0x4c70000000000000 0 then 0xff800000 else 0x7f800000) =
      (if f64_ltb 0x4c70000000000000 0 then -1 else 1) :=
  parse_float_inf_narrowing pdStub ['2'] 5 0x4c70000000000000 rfl (by decide)

/-- Claim C7: when the first character of the span does not begin a number the
parser returns the unchanged start offset (no-match), as on "abc"; the
distinguished failure value `none` arises only for spans whose first character
does begin a numeric token. -/
theorem parse_double_no_match_contract :
    (∀ c rest, beginsNumber c = false → parse_double (c :: rest) = some (0, 0)) ∧
    parse_double ['a', 'b', 'c'] = some (0, 0) ∧
    (∀ buf, parse_double buf = none →
      ∃ c rest, buf = c :: rest ∧ beginsNumber c = true) := by
  refine ⟨?_, by decide, ?_⟩
  · intro c rest h
    simp [parse_double, h]
  · intro buf h
    cases buf with
    | nil => simp [parse_double] at h
    | cons c rest =>
      refine ⟨c, rest, rfl, ?_⟩
      by_cases hb : beginsNumber c = true
      · exact hb
      · simp [parse_double, hb] at h

/-- Witness for C7 at the single-character span "x". -/
theorem parse_double_no_match_contract_witness :
    parse_double ['x'] = some (0, 0) :=
  parse_double_no_match_contract.1 'x' [] (by decide)

/-- Claim C8: for every fast-path engine respecting the spec's contract —
answering only results that are bit-identical to the fallback's and deferring
otherwise — the build with the fast path enabled returns, on every input span,
exactly the fallback's offset and value. -/
theorem parse_double_engine_agnostic :
    ∀ fast : List Char → Option (Option (Nat × Nat)),
    (∀ buf r, fast buf = some r → r = parse_double buf) →
    ∀ buf, parse_double_grisu3 fast buf = parse_double buf := by
  intro fast hc buf
  rcases hf : fast buf with _ | r
  · simp [parse_double_grisu3, hf]
  · simp [parse_double_grisu3, hf]
    exact hc buf r hf

/-- A concrete conforming fast-path engine: accepts only the span "1", where it
answers what the fallback answers, and defers on every other span. -/
def fastStub : List Char → Option (Option (Nat × Nat)) :=
  fun buf => if buf = ['1'] then some (some (1, 0x3ff0000000000000)) else none

/-- Witness for C8: the fast-path build agrees with the fallback on a span the
engine accepts and on a span where it defers. -/
theorem parse_double_engine_agnostic_witness :
    parse_double_grisu3 fastStub ['1'] = parse_double ['1'] ∧
    parse_double_grisu3 fastStub ['2', '.', '5'] = parse_double ['2', '.', '5'] := by
  have hc : ∀ buf r, fastStub buf = some r → r = parse_double buf := by
    intro buf r h
    by_cases hb : buf = ['1']
    · subst hb
      simp [fastStub] at h
      subst h
      decide
    · simp [fastStub, hb] at h
  exact ⟨parse_double_engine_agnostic fastStub hc ['1'],
    parse_double_engine_agnostic fastStub hc ['2', '.', '5']⟩

end Pparsefp
